import Mathlib

/-!
Verification of the tonneli waste-collection aggregator (crates
`tonneli-core`, `tonneli-provider-cologne`, `tonneli-provider-nuremberg`).

Rust strings are modelled as `List Char` so that every string operation the
source performs (`split`, `trim`, `to_lowercase`, `contains`, integer
parsing and printing) is a structurally recursive Lean function that the
kernel can evaluate.  Backend HTTP responses are oracle inputs: each adapter
function takes the decoded response data (or a transport error) as an
explicit argument, and returns alongside its result a record of the backend
requests it issued, so that "no backend call" and "requested window" are
observable facts.
-/

deriving instance DecidableEq for Except

/-- Rust `String` / `&str`, modelled as its character sequence. -/
abbrev Str := List Char

/-- Coerce a Lean string literal to the `Str` model. -/
def str (s : String) : Str := s.data

/-- Rust `str::split(sep)` for a single-character separator: every maximal
separator-free run, so the result is never empty (`"".split(c)` is `[""]`). -/
def splitChar (sep : Char) : Str → List Str
  | [] => [[]]
  | c :: rest =>
    if c = sep then [] :: splitChar sep rest
    else
      match splitChar sep rest with
      | [] => [[c]]
      | s :: ss => (c :: s) :: ss

/-- Rust `char::is_whitespace`, restricted to the ASCII whitespace that the
source's inputs can contain. -/
def isWs (c : Char) : Bool := c.isWhitespace

/-- Rust `str::trim`: drop leading and trailing whitespace. -/
def trimStr (s : Str) : Str :=
  ((s.dropWhile isWs).reverse.dropWhile isWs).reverse

/-- Rust `str::to_lowercase` (per-character mapping). -/
def toLowerStr (s : Str) : Str := s.map Char.toLower

/-- Whether `pat` is a prefix of `s`. -/
def isPrefixStr : Str → Str → Bool
  | [], _ => true
  | _ :: _, [] => false
  | p :: ps, c :: cs => p = c && isPrefixStr ps cs

/-- Rust `str::contains(pat)`: substring containment. -/
def containsStr : Str → Str → Bool
  | s, pat =>
    if isPrefixStr pat s then true
    else
      match s with
      | [] => false
      | _ :: rest => containsStr rest pat

/-- Decimal digits of a natural number, most significant first. -/
def natDigits (n : Nat) : Str :=
  Nat.toDigits 10 n

/-- Rust `i64::to_string` (and `ToString` for any signed integer). -/
def intToStr (i : Int) : Str :=
  if i < 0 then '-' :: natDigits i.natAbs else natDigits i.natAbs

/-- Numeric value of an all-digit run, most significant first. -/
def digitsToNat (s : Str) : Nat :=
  s.foldl (fun acc c => acc * 10 + (c.toNat - 48)) 0

/-- Rust `str::parse::<i32>()`: optional single sign, then at least one ASCII
digit, and the value must fit in 32-bit two's complement range. -/
def parseI32 (s : Str) : Option Int :=
  let core : Int × Str :=
    match s with
    | '+' :: rest => (1, rest)
    | '-' :: rest => (-1, rest)
    | _ => (1, s)
  let sign := core.1
  let digits := core.2
  if digits.isEmpty then none
  else if digits.all Char.isDigit then
    let v : Int := sign * (digitsToNat digits : Int)
    if -(2 ^ 31) ≤ v ∧ v ≤ 2 ^ 31 - 1 then some v else none
  else none

/-- Calendar date, mirroring `chrono::NaiveDate` as its (year, month, day)
components. -/
structure Date where
  year : Int
  month : Nat
  day : Nat
deriving DecidableEq, Repr

/-- Order key: chronological order coincides with lexicographic component
order on the valid dates `NaiveDate` can hold (month ≤ 12, day ≤ 31). -/
def Date.key (d : Date) : Int :=
  d.year * 10000 + (d.month : Int) * 100 + (d.day : Int)

instance : LE Date := ⟨fun a b => a.key ≤ b.key⟩

instance : LT Date := ⟨fun a b => a.key < b.key⟩

instance (a b : Date) : Decidable (a ≤ b) :=
  inferInstanceAs (Decidable (a.key ≤ b.key))

instance (a b : Date) : Decidable (a < b) :=
  inferInstanceAs (Decidable (a.key < b.key))

/-- Gregorian leap-year rule, as `chrono` implements it. -/
def isLeapYear (y : Int) : Bool :=
  (y % 4 == 0 && y % 100 != 0) || y % 400 == 0

/-- Number of days in a month of a given year. -/
def daysInMonth (y : Int) (m : Nat) : Nat :=
  if m = 2 then (if isLeapYear y then 29 else 28)
  else if m = 4 ∨ m = 6 ∨ m = 9 ∨ m = 11 then 30
  else 31

/-- `chrono::NaiveDate::from_ymd_opt`: `some` exactly on valid calendar
dates. -/
def fromYmd? (y : Int) (m d : Nat) : Option Date :=
  if 1 ≤ m ∧ m ≤ 12 ∧ 1 ≤ d ∧ d ≤ daysInMonth y m then some ⟨y, m, d⟩
  else none

/-- An all-digit, non-empty run (helper for date parsing). -/
def isDigitRun (s : Str) : Bool :=
  !s.isEmpty && s.all Char.isDigit

/-- `chrono::NaiveDate::parse_from_str(s, "%Y-%m-%d")`: three dash-separated
digit runs forming a valid calendar date. -/
def parseDate (s : Str) : Option Date :=
  match splitChar '-' s with
  | [ys, ms, ds] =>
    if isDigitRun ys && isDigitRun ms && isDigitRun ds then
      fromYmd? (digitsToNat ys) (digitsToNat ms) (digitsToNat ds)
    else none
  | _ => none

/-! ### Domain model (`tonneli-core/src/model.rs`) -/

/-- Identifier for a city known to tonneli (`CityId(pub String)`). -/
structure CityId where
  val : Str
deriving DecidableEq, Repr

/-- Metadata describing a city and its human-friendly name. -/
structure CityMeta where
  id : CityId
  name : Str
deriving DecidableEq, Repr

/-- Identifier for a concrete address (`AddressId(pub String)`). -/
structure AddressId where
  val : Str
deriving DecidableEq, Repr

/-- Address returned from a provider search. -/
structure Address where
  id : AddressId
  city : CityId
  label : Str
  street : Str
  house_number : Str
deriving DecidableEq, Repr

/-- Waste fractions that can be collected. -/
inductive Fraction where
  | Residual
  | Organic
  | Paper
  | Plastic
  | Glass
  | Metal
  | Other (raw : Str)
deriving DecidableEq, Repr

/-- Scheduled pickup for a specific day. -/
structure PickupEvent where
  date : Date
  fraction : Fraction
  note : Option Str
deriving DecidableEq, Repr

/-- Inclusive start/end range for requested schedules. -/
structure DateRange where
  start : Date
  stop : Date
deriving DecidableEq, Repr

/-! ### Ports (`tonneli-core/src/ports.rs`) -/

/-- Errors that can occur while talking to provider backends.  The payloads
of `Network` and `Parse` are external library error values and are elided. -/
inductive PortError where
  | Network
  | Parse
  | AddressNotFound
  | UnsupportedCity
  | InvalidAddressId
  | UnknownFraction (s : Str)
  | Internal (s : Str)
deriving DecidableEq, Repr

/-- Query parameters for searching addresses. -/
structure AddressSearch where
  street : Str
  house_number : Option Str
deriving DecidableEq, Repr

/-- `AddressSearch::is_empty`: the street is empty or whitespace-only. -/
def AddressSearch.is_empty (q : AddressSearch) : Bool :=
  (trimStr q.street).isEmpty

/-! ### Plugin registry (`tonneli-core/src/plugin.rs`)

The two port trait objects of a `CityPlugin` are modelled by their observable
behaviour: plain functions from the operations' inputs to their results. -/

/-- Collection of ports implementing a provider for a single city. -/
structure CityPlugin where
  meta : CityMeta
  address_port : AddressSearch → Nat → Except PortError (List Address)
  schedule_port : AddressId → DateRange → Except PortError (List PickupEvent)

/-- Registry that resolves plugins by city identifier.  Rust's
`HashMap<CityId, CityPlugin>` is modelled as an association list with
last-insert-wins semantics, matching `HashMap`'s behaviour on duplicate
keys during `collect`. -/
structure PluginRegistry where
  plugins : List (CityId × CityPlugin)

/-- Insert into the association-list map, replacing an existing binding of
the same key (the semantics of `HashMap::insert`). -/
def insertReplace (m : List (CityId × CityPlugin)) (k : CityId) (v : CityPlugin) :
    List (CityId × CityPlugin) :=
  match m with
  | [] => [(k, v)]
  | (k', v') :: rest =>
    if k' = k then (k, v) :: rest else (k', v') :: insertReplace rest k v

/-- `PluginRegistry::new`: build the map keyed by each plugin's
`meta.id`. -/
def PluginRegistry.new (ps : List CityPlugin) : PluginRegistry :=
  ⟨ps.foldl (fun m p => insertReplace m p.meta.id p) []⟩

/-- `PluginRegistry::cities`: metadata of all registered cities. -/
def PluginRegistry.cities (r : PluginRegistry) : List CityMeta :=
  r.plugins.map (fun e => e.2.meta)

/-- `PluginRegistry::plugin`: look up a plugin, or fail with
`UnsupportedCity`. -/
def PluginRegistry.plugin (r : PluginRegistry) (city : CityId) :
    Except PortError CityPlugin :=
  match r.plugins.find? (fun e => decide (e.1 = city)) with
  | some e => .ok e.2
  | none => .error .UnsupportedCity

/-! ### Service facade (`tonneli-core/src/service.rs`) -/

/-- `TonneliService::search_addresses`: resolve the city, then delegate to
its address port. -/
def TonneliService.search_addresses (r : PluginRegistry) (city : CityId)
    (query : AddressSearch) (limit : Nat) : Except PortError (List Address) :=
  match r.plugin city with
  | .error e => .error e
  | .ok p => p.address_port query limit

/-- `TonneliService.schedule_for`: resolve the city, then delegate to its
schedule port. -/
def TonneliService.schedule_for (r : PluginRegistry) (city : CityId)
    (address_id : AddressId) (range : DateRange) :
    Except PortError (List PickupEvent) :=
  match r.plugin city with
  | .error e => .error e
  | .ok p => p.schedule_port address_id range

/-! ### Fraction mapping functions -/

/-- Cologne `map_awb_type`: map an AWB "type" string (grey/blue/…) to a
`Fraction` plus a human note. -/
def map_awb_type (raw : Str) : Fraction × Str :=
  let type_tag := toLowerStr raw
  if type_tag = str "grey" then (.Residual, str "Restabfall")
  else if type_tag = str "blue" then (.Paper, str "Papier / Pappe")
  else if type_tag = str "wertstoff" then
    (.Plastic, str "Leichtverpackungen / Wertstoffe")
  else if type_tag = str "brown" then (.Organic, str "Bioabfall")
  else (.Other raw, str "Fraktion " ++ raw)

/-- Nuremberg `map_fraction`: keyword matching on the lowercased fraction
name. -/
def map_fraction (name : Str) : Fraction :=
  let normalized := toLowerStr name
  if containsStr normalized (str "rest") then .Residual
  else if containsStr normalized (str "bio") then .Organic
  else if containsStr normalized (str "papier") ||
      containsStr normalized (str "pappe") then .Paper
  else if containsStr normalized (str "gelb") ||
      containsStr normalized (str "leichtverpackung") ||
      containsStr normalized (str "lvp") then .Plastic
  else if containsStr normalized (str "glas") then .Glass
  else if containsStr normalized (str "metall") ||
      containsStr normalized (str "schrott") then .Metal
  else .Other name

/-! ### Cologne provider (`tonneli-provider-cologne/src/lib.rs`)

The backend oracle stands for the decoded JSON of the AWB API: the `data`
array of `/api/streets` for searches, and of `/api/calendar` for schedules,
or the transport/decode error `fetch_json` would surface.  Each adapter
function additionally reports how many backend requests it issued (searches)
or the exact calendar query it sent (schedules). -/

/-- Single street/house entry from `/api/streets`. -/
structure StreetEntry where
  street_name : Str
  building_number : Str
  building_number_addition : Str
  street_code : Str
  user_street_name : Str
  user_building_number : Str
deriving DecidableEq, Repr

/-- Single pickup from `/api/calendar`. -/
structure CalendarEntry where
  day : Nat
  month : Nat
  year : Int
  typ : Str
deriving DecidableEq, Repr

/-- The query parameters `CologneSchedulePort::schedule` sends to
`/api/calendar`; the addition parameter is appended only when non-empty. -/
structure CalendarQuery where
  building_number : Str
  street_code : Str
  start_year : Int
  end_year : Int
  start_month : Nat
  end_month : Nat
  building_number_addition : Option Str
deriving DecidableEq, Repr

/-- The Cologne `city_meta()`. -/
def cologne_meta : CityMeta := ⟨⟨str "cologne"⟩, str "Köln"⟩

/-- `CologneAddressPort::search`: short-circuit on empty input, else one
backend call, keeping at most `limit` entries mapped to `Address` values. -/
def CologneAddressPort.search (query : AddressSearch) (limit : Nat)
    (backend : Except PortError (List StreetEntry)) :
    Except PortError (List Address) × Nat :=
  if limit = 0 || query.is_empty then (.ok [], 0)
  else
    match backend with
    | .error e => (.error e, 1)
    | .ok data =>
      (.ok ((data.take limit).map fun entry =>
        let street := if entry.user_street_name.isEmpty then
            entry.street_name else entry.user_street_name
        let house := if entry.user_building_number.isEmpty then
            entry.building_number else entry.user_building_number
        { id := ⟨entry.street_code ++ str ":" ++ entry.building_number ++
            str ":" ++ entry.building_number_addition⟩,
          city := cologne_meta.id,
          label := street ++ str " " ++ house,
          street := street,
          house_number := house }), 1)

/-- The id-decoding step of `CologneSchedulePort::schedule`: split the id at
`:` into street code, building number, and optional addition. -/
def cologneDecodeId (id : Str) : Except PortError (Str × Str × Str) :=
  match splitChar ':' id with
  | [] => .error .InvalidAddressId
  | [_] => .error .InvalidAddressId
  | code :: num :: rest => .ok (code, num, rest.headD [])

/-- Comparison of pickup events by date, the key of the final
`sort_by_key`. -/
def eventLe (a b : PickupEvent) : Prop := a.date ≤ b.date

instance : DecidableRel eventLe := fun a b =>
  inferInstanceAs (Decidable (a.date ≤ b.date))

instance : IsTotal PickupEvent eventLe :=
  ⟨fun a b => Int.le_total a.date.key b.date.key⟩

instance : IsTrans PickupEvent eventLe :=
  ⟨fun _ _ _ h₁ h₂ => Int.le_trans h₁ h₂⟩

/-- The response loop of `CologneSchedulePort::schedule`: validate each
entry's date, drop dates outside the requested range, map the AWB type. -/
def cologneProcessEntries (range : DateRange) :
    List CalendarEntry → Except PortError (List PickupEvent)
  | [] => .ok []
  | entry :: rest =>
    match fromYmd? entry.year entry.month entry.day with
    | none => .error (.Internal (str "Invalid date in AWB calendar"))
    | some date =>
      if date < range.start ∨ range.stop < date then
        cologneProcessEntries range rest
      else
        match cologneProcessEntries range rest with
        | .error e => .error e
        | .ok evs =>
          .ok ({ date := date, fraction := (map_awb_type entry.typ).1,
                 note := some (map_awb_type entry.typ).2 } :: evs)

/-- `CologneSchedulePort::schedule`: decode the address id, build the
calendar request window, filter the response to the range, sort by date. -/
def CologneSchedulePort.schedule (address_id : AddressId) (range : DateRange)
    (backend : CalendarQuery → Except PortError (List CalendarEntry)) :
    Except PortError (List PickupEvent) × List CalendarQuery :=
  match cologneDecodeId address_id.val with
  | .error e => (.error e, [])
  | .ok (street_code, building_number, building_number_addition) =>
    let start_year := range.start.year
    let end_year := range.stop.year
    let months : Nat × Nat :=
      if start_year = end_year then (range.start.month, range.stop.month)
      else (1, 12)
    let q : CalendarQuery :=
      { building_number := building_number, street_code := street_code,
        start_year := start_year, end_year := end_year,
        start_month := months.1, end_month := months.2,
        building_number_addition :=
          if building_number_addition.isEmpty then none
          else some building_number_addition }
    match backend q with
    | .error e => (.error e, [q])
    | .ok data =>
      match cologneProcessEntries range data with
      | .error e => (.error e, [q])
      | .ok events => (.ok (List.insertionSort eventLe events), [q])

/-! ### Nuremberg provider (`tonneli-provider-nuremberg/src/lib.rs`) -/

/-- Street as returned by `/orte/{ortId}/strassen`. -/
structure Street where
  id : Int
  name : Str
deriving DecidableEq, Repr

/-- House number entry inside `StreetDetail`. -/
structure HouseNumber where
  id : Int
  number : Str
deriving DecidableEq, Repr

/-- Detailed street (with house numbers), `/strassen/{strassenId}`. -/
structure StreetDetail where
  house_numbers : List HouseNumber
deriving DecidableEq, Repr

/-- Nested district object that holds the fraction id. -/
structure District where
  fraction_id : Int
deriving DecidableEq, Repr

/-- Pickup as returned by `/hausnummern/{hausnummerId}/termine`. -/
structure PickupResponse where
  date : Str
  district : Option District
deriving DecidableEq, Repr

/-- Fraction metadata from `/hausnummern/{hausnummerId}/fraktionen`. -/
structure FractionInfo where
  id : Int
  name : Str
deriving DecidableEq, Repr

/-- Backend oracle for a Nuremberg search: the streets listing and, per
street id, the street detail response. -/
structure NurembergSearchBackend where
  streets : Except PortError (List Street)
  details : Int → Except PortError StreetDetail

/-- Backend oracle for a Nuremberg schedule fetch. -/
structure NurembergScheduleBackend where
  fraktionen : Except PortError (List FractionInfo)
  termine : Except PortError (List PickupResponse)

/-- The Nuremberg `city_meta()`. -/
def nuremberg_meta : CityMeta := ⟨⟨str "nuremberg"⟩, str "Nürnberg"⟩

/-- Lexicographic order on character sequences; UTF-8 byte order (Rust's
`String` order, the `sort_by_key` key) agrees with code-point order. -/
def lexLe : Str → Str → Bool
  | [], _ => true
  | _ :: _, [] => false
  | a :: as, b :: bs =>
    if a < b then true else if b < a then false else lexLe as bs

/-- Comparison of house numbers by their display string. -/
def houseNumLe (a b : HouseNumber) : Prop := lexLe a.number b.number = true

instance : DecidableRel houseNumLe := fun a b =>
  inferInstanceAs (Decidable (lexLe a.number b.number = true))

/-- The street loop of `NurembergAddressPort::search`: stop once `limit`
addresses are collected, fetch each street's detail, sort its house numbers,
apply the optional house-number filter, and keep at most the remaining
quota. -/
def nurembergCollect (details : Int → Except PortError StreetDetail)
    (house_filter : Option Str) (limit : Nat) :
    List Street → List Address → Nat → Except PortError (List Address) × Nat
  | [], acc, calls => (.ok acc, calls)
  | street :: rest, acc, calls =>
    if acc.length = limit then (.ok acc, calls)
    else
      match details street.id with
      | .error e => (.error e, calls + 1)
      | .ok detail =>
        let sorted := List.insertionSort houseNumLe detail.house_numbers
        let remaining := limit - acc.length
        let fresh := ((sorted.filter fun hn =>
            match house_filter with
            | none => true
            | some f => containsStr (toLowerStr hn.number) f).take remaining).map
          fun hn =>
            { id := ⟨intToStr hn.id⟩, city := nuremberg_meta.id,
              label := street.name ++ str " " ++ hn.number,
              street := street.name, house_number := hn.number }
        nurembergCollect details house_filter limit rest (acc ++ fresh) (calls + 1)

/-- `NurembergAddressPort::search`: short-circuit on empty input, else fetch
the street list (one call) and run the collection loop over the matching
streets. -/
def NurembergAddressPort.search (query : AddressSearch) (limit : Nat)
    (backend : NurembergSearchBackend) :
    Except PortError (List Address) × Nat :=
  if limit = 0 || query.is_empty then (.ok [], 0)
  else
    let street_query := trimStr query.street
    if street_query.isEmpty then (.ok [], 0)
    else
      let house_filter :=
        match query.house_number with
        | none => none
        | some h =>
          let t := trimStr h
          if t.isEmpty then none else some (toLowerStr t)
      match backend.streets with
      | .error e => (.error e, 1)
      | .ok streets =>
        let query_lower := toLowerStr street_query
        let matching := streets.filter fun s =>
          containsStr (toLowerStr s.name) query_lower
        nurembergCollect backend.details house_filter limit matching [] 1

/-- Lookup in the fraction-name map.  The Rust code inserts every
`FractionInfo` into a `HashMap` in order, so a later duplicate id overwrites
an earlier one: the binding is the last list entry with that id. -/
def fractionName (fractions : List FractionInfo) (fid : Int) : Option Str :=
  (fractions.reverse.find? fun f => decide (f.id = fid)).map (fun f => f.name)

/-- The pickup loop of `NurembergSchedulePort::schedule`: parse each date,
drop dates outside the requested range, resolve the fraction via the
district's fraction id.  No sorting happens here. -/
def nurembergProcessPickups (range : DateRange) (fractions : List FractionInfo) :
    List PickupResponse → Except PortError (List PickupEvent)
  | [] => .ok []
  | pickup :: rest =>
    match parseDate pickup.date with
    | none => .error .Parse
    | some date =>
      if date < range.start ∨ range.stop < date then
        nurembergProcessPickups range fractions rest
      else
        let pair : Option Str × Fraction :=
          match pickup.district with
          | some district =>
            match fractionName fractions district.fraction_id with
            | some name => (some name, map_fraction name)
            | none =>
              (none, .Other (str "Fraction " ++ intToStr district.fraction_id))
          | none => (none, .Other (str "Unknown fraction"))
        match nurembergProcessPickups range fractions rest with
        | .error e => .error e
        | .ok evs =>
          .ok ({ date := date, fraction := pair.2, note := pair.1 } :: evs)

/-- `NurembergSchedulePort::schedule`: parse the address id as an `i32`,
fetch the fraction list and the pickup dates, filter to the range. -/
def NurembergSchedulePort.schedule (address_id : AddressId) (range : DateRange)
    (backend : NurembergScheduleBackend) : Except PortError (List PickupEvent) :=
  match parseI32 address_id.val with
  | none => .error .InvalidAddressId
  | some _ =>
    match backend.fraktionen with
    | .error e => .error e
    | .ok fractions =>
      match backend.termine with
      | .error e => .error e
      | .ok pickups => nurembergProcessPickups range fractions pickups


/-! ### Theorems -/

/-- A `Fraction` value from the closed canonical set (not `Other`). -/
def Fraction.isCanonical : Fraction → Prop
  | .Other _ => False
  | _ => True

/-- C7: for every backend category string, Cologne's `map_awb_type` and
Nuremberg's `map_fraction` return either a canonical `Fraction` variant or
`Other` carrying the original input string unchanged; being total functions
they never fail and never drop the label. -/
theorem fraction_mapping_total (raw : Str) :
    ((map_awb_type raw).1.isCanonical ∨ (map_awb_type raw).1 = .Other raw) ∧
    ((map_fraction raw).isCanonical ∨ map_fraction raw = .Other raw) := by
  constructor
  · simp only [map_awb_type]
    repeat' split
    all_goals simp [Fraction.isCanonical]
  · simp only [map_fraction]
    repeat' split
    all_goals simp [Fraction.isCanonical]

/-- C5: for both cities, a search with `limit = 0` or an empty or
whitespace-only street returns `Ok []` and issues zero backend calls,
whatever the backend would have answered. -/
theorem search_empty_input_short_circuit (query : AddressSearch) (limit : Nat)
    (h : limit = 0 ∨ query.is_empty = true) :
    (∀ backend, CologneAddressPort.search query limit backend = (.ok [], 0)) ∧
    (∀ backend, NurembergAddressPort.search query limit backend = (.ok [], 0)) := by
  have hcond : (decide (limit = 0) || query.is_empty) = true := by
    rcases h with h | h <;> simp [h]
  constructor <;> intro backend
  · simp only [CologneAddressPort.search, hcond, if_true]
  · simp only [NurembergAddressPort.search, hcond, if_true]

/-- Witness for C5 at a whitespace-only street with a backend that would
have failed. -/
theorem search_empty_input_short_circuit_witness :
    (CologneAddressPort.search ⟨str "  ", none⟩ 5 (.error .Network) = (.ok [], 0)) ∧
    (NurembergAddressPort.search ⟨str "  ", none⟩ 5
      ⟨.error .Network, fun _ => .error .Network⟩ = (.ok [], 0)) := by
  have h := search_empty_input_short_circuit ⟨str "  ", none⟩ 5 (Or.inr (by decide))
  exact ⟨h.1 _, h.2 _⟩

/-- The Nuremberg collection loop never grows its accumulator beyond
`limit`. -/
theorem nurembergCollect_length_le
    (details : Int → Except PortError StreetDetail) (house_filter : Option Str)
    (limit : Nat) (streets : List Street) (acc : List Address) (calls : Nat)
    (hacc : acc.length ≤ limit) :
    ∀ {addrs : List Address} {n : Nat},
      nurembergCollect details house_filter limit streets acc calls = (.ok addrs, n) →
      addrs.length ≤ limit := by
  induction streets generalizing acc calls with
  | nil =>
    intro addrs n h
    simp only [nurembergCollect] at h
    cases h
    exact hacc
  | cons s rest ih =>
    intro addrs n h
    simp only [nurembergCollect] at h
    split at h
    · cases h
      exact hacc
    · split at h
      · cases h
      · refine ih _ _ ?_ h
        rename_i detail heq
        have hfresh :
            ((((List.insertionSort houseNumLe detail.house_numbers).filter fun hn =>
                match house_filter with
                | none => true
                | some f => containsStr (toLowerStr hn.number) f).take
              (limit - acc.length)).map fun hn =>
                { id := ⟨intToStr hn.id⟩, city := nuremberg_meta.id,
                  label := s.name ++ str " " ++ hn.number,
                  street := s.name, house_number := hn.number : Address }).length ≤
              limit - acc.length := by
          rw [List.length_map]
          exact (List.length_take_le _ _)
        rw [List.length_append]
        omega

/-- C6: for both cities, every successful search returns at most `limit`
addresses, whatever and however many entries the backend returned. -/
theorem search_result_cap (query : AddressSearch) (limit : Nat) :
    (∀ backend addrs n,
      CologneAddressPort.search query limit backend = (.ok addrs, n) →
      addrs.length ≤ limit) ∧
    (∀ backend addrs n,
      NurembergAddressPort.search query limit backend = (.ok addrs, n) →
      addrs.length ≤ limit) := by
  constructor
  · intro backend addrs n h
    simp only [CologneAddressPort.search] at h
    split at h
    · cases h
      simp
    · split at h
      · cases h
      · cases h
        rw [List.length_map]
        exact List.length_take_le _ _
  · intro backend addrs n h
    simp only [NurembergAddressPort.search] at h
    split at h
    · cases h
      simp
    · split at h
      · cases h
        simp
      · split at h
        · cases h
        · exact nurembergCollect_length_le _ _ _ _ _ _ (by simp) h

/-- Witness for C6: a Cologne backend returning three streets capped at
limit 2, and a Nuremberg backend whose matching street holds three house
numbers, also capped at 2. -/
theorem search_result_cap_witness :
    ((CologneAddressPort.search ⟨str "haupt", none⟩ 2
        (.ok [⟨str "Hauptstr.", str "1", [], str "100", [], []⟩,
              ⟨str "Hauptstr.", str "2", [], str "100", [], []⟩,
              ⟨str "Hauptstr.", str "3", [], str "100", [], []⟩])).1 =
      .ok [⟨⟨str "100:1:"⟩, ⟨str "cologne"⟩, str "Hauptstr. 1", str "Hauptstr.", str "1"⟩,
           ⟨⟨str "100:2:"⟩, ⟨str "cologne"⟩, str "Hauptstr. 2", str "Hauptstr.", str "2"⟩]) ∧
    (∀ addrs n,
      CologneAddressPort.search ⟨str "haupt", none⟩ 2
        (.ok [⟨str "Hauptstr.", str "1", [], str "100", [], []⟩,
              ⟨str "Hauptstr.", str "2", [], str "100", [], []⟩,
              ⟨str "Hauptstr.", str "3", [], str "100", [], []⟩]) = (.ok addrs, n) →
      addrs.length ≤ 2) ∧
    (∀ addrs n,
      NurembergAddressPort.search ⟨str "test", none⟩ 2
        ⟨.ok [⟨10, str "Teststr."⟩],
         fun _ => .ok ⟨[⟨5, str "1"⟩, ⟨6, str "2"⟩, ⟨7, str "3"⟩]⟩⟩ = (.ok addrs, n) →
      addrs.length ≤ 2) := by
  refine ⟨by decide, ?_, ?_⟩
  · exact fun addrs n h => (search_result_cap ⟨str "haupt", none⟩ 2).1 _ addrs n h
  · exact fun addrs n h => (search_result_cap ⟨str "test", none⟩ 2).2 _ addrs n h

/-- Unfolding lemma for the date order. -/
theorem Date.le_def {a b : Date} : a ≤ b ↔ a.key ≤ b.key := Iff.rfl

/-- Unfolding lemma for the strict date order. -/
theorem Date.lt_def {a b : Date} : a < b ↔ a.key < b.key := Iff.rfl

/-- Every event produced by the Cologne response loop lies in the requested
range. -/
theorem cologneProcessEntries_mem (range : DateRange) :
    ∀ (entries : List CalendarEntry) (evs : List PickupEvent),
      cologneProcessEntries range entries = .ok evs →
      ∀ e ∈ evs, range.start ≤ e.date ∧ e.date ≤ range.stop := by
  intro entries
  induction entries with
  | nil =>
    intro evs h
    simp only [cologneProcessEntries] at h
    cases h
    simp
  | cons entry rest ih =>
    intro evs h
    simp only [cologneProcessEntries] at h
    split at h
    · cases h
    · split at h
      · exact ih _ h
      · split at h
        · cases h
        · cases h
          rename_i date hdate hcond evs' hrest
          intro e he
          rcases List.mem_cons.mp he with rfl | he'
          · rw [not_or] at hdate
            exact ⟨Int.not_lt.mp hdate.1, Int.not_lt.mp hdate.2⟩
          · exact ih _ hrest e he'

/-- Every event produced by the Nuremberg pickup loop lies in the requested
range. -/
theorem nurembergProcessPickups_mem (range : DateRange)
    (fractions : List FractionInfo) :
    ∀ (pickups : List PickupResponse) (evs : List PickupEvent),
      nurembergProcessPickups range fractions pickups = .ok evs →
      ∀ e ∈ evs, range.start ≤ e.date ∧ e.date ≤ range.stop := by
  intro pickups
  induction pickups with
  | nil =>
    intro evs h
    simp only [nurembergProcessPickups] at h
    cases h
    simp
  | cons pickup rest ih =>
    intro evs h
    simp only [nurembergProcessPickups] at h
    split at h
    · cases h
    · split at h
      · exact ih _ h
      · split at h
        · cases h
        · cases h
          rename_i date hdate hcond evs' hrest
          intro e he
          rcases List.mem_cons.mp he with rfl | he'
          · rw [not_or] at hdate
            exact ⟨Int.not_lt.mp hdate.1, Int.not_lt.mp hdate.2⟩
          · exact ih _ hrest e he'

/-- C2: for both cities, every event a successful schedule fetch returns
has its date inside the requested inclusive range, even when the backend
response contains dates outside it. -/
theorem schedule_range_filtering (address_id : AddressId) (range : DateRange) :
    (∀ backend evs,
      (CologneSchedulePort.schedule address_id range backend).1 = .ok evs →
      ∀ e ∈ evs, range.start ≤ e.date ∧ e.date ≤ range.stop) ∧
    (∀ backend evs,
      NurembergSchedulePort.schedule address_id range backend = .ok evs →
      ∀ e ∈ evs, range.start ≤ e.date ∧ e.date ≤ range.stop) := by
  constructor
  · intro backend evs h
    simp only [CologneSchedulePort.schedule] at h
    split at h
    · cases h
    · split at h
      · cases h
      · split at h
        · cases h
        · cases h
          rename_i events hevents
          intro e he
          have he' : e ∈ events :=
            (List.perm_insertionSort eventLe events).mem_iff.mp he
          exact cologneProcessEntries_mem range _ _ hevents e he'
  · intro backend evs h
    simp only [NurembergSchedulePort.schedule] at h
    split at h
    · cases h
    · split at h
      · cases h
      · split at h
        · cases h
        · exact nurembergProcessPickups_mem range _ _ _ h

/-- Witness for C2 at backends whose responses contain out-of-range dates
that the adapters must drop. -/
theorem schedule_range_filtering_witness :
    ((CologneSchedulePort.schedule ⟨str "100:1:"⟩ ⟨⟨2024, 5, 1⟩, ⟨2024, 5, 31⟩⟩
        (fun _ => .ok [⟨2, 5, 2024, str "grey"⟩, ⟨1, 1, 2023, str "blue"⟩])).1 =
      .ok [⟨⟨2024, 5, 2⟩, .Residual, some (str "Restabfall")⟩]) ∧
    (∀ e ∈ [(⟨⟨2024, 5, 2⟩, .Residual, some (str "Restabfall")⟩ : PickupEvent)],
      (⟨2024, 5, 1⟩ : Date) ≤ e.date ∧ e.date ≤ (⟨2024, 5, 31⟩ : Date)) := by
  refine ⟨by decide, ?_⟩
  exact (schedule_range_filtering ⟨str "100:1:"⟩ ⟨⟨2024, 5, 1⟩, ⟨2024, 5, 31⟩⟩).1
    (fun _ => .ok [⟨2, 5, 2024, str "grey"⟩, ⟨1, 1, 2023, str "blue"⟩]) _ (by decide)

/-- C1 (amended): every successful Cologne schedule fetch returns a
sequence that is non-decreasing by date; the Nuremberg adapter performs no
sort and returns the in-range events in backend response order, so its
output is not in general non-decreasing (see the counterexample). -/
theorem cologne_schedule_sorted (address_id : AddressId) (range : DateRange)
    (backend : CalendarQuery → Except PortError (List CalendarEntry))
    (evs : List PickupEvent)
    (h : (CologneSchedulePort.schedule address_id range backend).1 = .ok evs) :
    evs.Sorted eventLe := by
  simp only [CologneSchedulePort.schedule] at h
  split at h
  · cases h
  · split at h
    · cases h
    · split at h
      · cases h
      · cases h
        exact List.sorted_insertionSort eventLe _

/-- Witness for C1's amended theorem: a backend returning dates out of
order, which the Cologne adapter sorts. -/
theorem cologne_schedule_sorted_witness :
    List.Sorted eventLe
      [⟨⟨2024, 5, 1⟩, .Paper, some (str "Papier / Pappe")⟩,
       ⟨⟨2024, 5, 2⟩, .Residual, some (str "Restabfall")⟩] :=
  cologne_schedule_sorted ⟨str "100:1:"⟩ ⟨⟨2024, 1, 1⟩, ⟨2024, 12, 31⟩⟩
    (fun _ => .ok [⟨2, 5, 2024, str "grey"⟩, ⟨1, 5, 2024, str "blue"⟩])
    _ (by decide)

/-- Counterexample to C1 as stated: a Nuremberg backend returning two
in-range pickups with descending dates makes the schedule fetch succeed
with a sequence that is not non-decreasing by date. -/
theorem nuremberg_schedule_unsorted_counterexample :
    (NurembergSchedulePort.schedule ⟨str "1"⟩ ⟨⟨2024, 1, 1⟩, ⟨2024, 12, 31⟩⟩
        ⟨.ok [], .ok [⟨str "2024-05-02", some ⟨1⟩⟩, ⟨str "2024-05-01", some ⟨1⟩⟩]⟩ =
      .ok [⟨⟨2024, 5, 2⟩, .Other (str "Fraction 1"), none⟩,
           ⟨⟨2024, 5, 1⟩, .Other (str "Fraction 1"), none⟩]) ∧
    ¬ List.Sorted eventLe
      [⟨⟨2024, 5, 2⟩, .Other (str "Fraction 1"), none⟩,
       ⟨⟨2024, 5, 1⟩, .Other (str "Fraction 1"), none⟩] := by
  constructor
  · decide
  · intro hs
    have := List.rel_of_sorted_cons hs _ (List.mem_singleton.mpr rfl)
    exact absurd this (by decide)

/-- C3: an address id that the provider's own encoding does not recognize —
for Cologne an id without a `:` separator, for Nuremberg an id that does not
parse as an `i32` — makes the schedule fetch fail with `InvalidAddressId`
before any backend call, never succeed with an empty result. -/
theorem invalid_address_id_rejected (address_id : AddressId) (range : DateRange) :
    ((splitChar ':' address_id.val).length < 2 →
      ∀ backend,
        (CologneSchedulePort.schedule address_id range backend).1 =
          .error .InvalidAddressId ∧
        (CologneSchedulePort.schedule address_id range backend).1 ≠ .ok []) ∧
    (parseI32 address_id.val = none →
      ∀ backend,
        NurembergSchedulePort.schedule address_id range backend =
          .error .InvalidAddressId ∧
        NurembergSchedulePort.schedule address_id range backend ≠ .ok []) := by
  constructor
  · intro h backend
    have hdec : cologneDecodeId address_id.val = .error .InvalidAddressId := by
      unfold cologneDecodeId
      rcases hs : splitChar ':' address_id.val with - | ⟨a, - | ⟨b, rest⟩⟩
      · rfl
      · rfl
      · rw [hs] at h
        simp at h
        omega
    rw [CologneSchedulePort.schedule, hdec]
    exact ⟨rfl, by simp⟩
  · intro h backend
    rw [NurembergSchedulePort.schedule, h]
    exact ⟨rfl, by simp⟩

/-- Witness for C3: a Nuremberg-shaped id (plain decimal) rejected by
Cologne, and a Cologne-shaped composite id rejected by Nuremberg. -/
theorem invalid_address_id_rejected_witness :
    ((CologneSchedulePort.schedule ⟨str "12345"⟩ ⟨⟨2024, 1, 1⟩, ⟨2024, 12, 31⟩⟩
        (fun _ => .ok [])).1 = .error .InvalidAddressId) ∧
    (NurembergSchedulePort.schedule ⟨str "100:1:"⟩ ⟨⟨2024, 1, 1⟩, ⟨2024, 12, 31⟩⟩
        ⟨.ok [], .ok []⟩ = .error .InvalidAddressId) := by
  have h := invalid_address_id_rejected ⟨str "12345"⟩ ⟨⟨2024, 1, 1⟩, ⟨2024, 12, 31⟩⟩
  have h' := invalid_address_id_rejected ⟨str "100:1:"⟩ ⟨⟨2024, 1, 1⟩, ⟨2024, 12, 31⟩⟩
  exact ⟨(h.1 (by decide) _).1, (h'.2 (by decide) _).1⟩

/-- C4's failing input, evaluated: the Nuremberg backend issues house-number
id 3000000000 (a valid `i64`, above `i32::MAX` = 2147483647), `search`
encodes it into the `AddressId` "3000000000", and the same provider's
`schedule` rejects exactly that id with `InvalidAddressId` before calling
the backend, because it re-parses the id as an `i32`. -/
theorem nuremberg_roundtrip_overflow_bug :
    ((NurembergAddressPort.search ⟨str "test", none⟩ 5
        ⟨.ok [⟨10, str "Teststraße"⟩],
         fun i => if i = 10 then .ok ⟨[⟨3000000000, str "1"⟩]⟩ else .error .Network⟩).1 =
      .ok [⟨⟨str "3000000000"⟩, ⟨str "nuremberg"⟩, str "Teststraße 1",
            str "Teststraße", str "1"⟩]) ∧
    (NurembergSchedulePort.schedule ⟨str "3000000000"⟩ ⟨⟨2024, 1, 1⟩, ⟨2024, 12, 31⟩⟩
        ⟨.ok [], .ok []⟩ = .error .InvalidAddressId) := by
  constructor <;> decide

/-- C8: whenever the address id decodes, the Cologne schedule adapter sends
exactly one calendar request whose window covers the range as specified:
within one calendar year it asks for that year and the enclosing month
span; across years it asks for months 1–12 of the two endpoint years. -/
theorem cologne_request_window (address_id : AddressId) (range : DateRange)
    (code num add : Str)
    (h : cologneDecodeId address_id.val = .ok (code, num, add)) :
    ∀ backend,
      (CologneSchedulePort.schedule address_id range backend).2 =
        [{ building_number := num, street_code := code,
           start_year := range.start.year, end_year := range.stop.year,
           start_month :=
             if range.start.year = range.stop.year then range.start.month else 1,
           end_month :=
             if range.start.year = range.stop.year then range.stop.month else 12,
           building_number_addition :=
             if add.isEmpty then none else some add }] := by
  intro backend
  rw [CologneSchedulePort.schedule, h]
  by_cases hy : range.start.year = range.stop.year <;>
    simp only [hy, if_true, if_false, reduceIte] <;>
    split <;>
    first
      | rfl
      | (split <;> rfl)

/-- Witness for C8 at the spec's year-spanning scenario
`2024-12-15..2025-01-15`: full-year coverage for 2024 and 2025. -/
theorem cologne_request_window_witness :
    (CologneSchedulePort.schedule ⟨str "100:1:"⟩ ⟨⟨2024, 12, 15⟩, ⟨2025, 1, 15⟩⟩
        (fun _ => .ok [])).2 =
      [{ building_number := str "1", street_code := str "100",
         start_year := 2024, end_year := 2025,
         start_month := 1, end_month := 12,
         building_number_addition := none }] := by
  have h := cologne_request_window ⟨str "100:1:"⟩ ⟨⟨2024, 12, 15⟩, ⟨2025, 1, 15⟩⟩
    (str "100") (str "1") [] (by decide) (fun _ => .ok [])
  rw [h]
  decide

/-- Looking up a key after an insert-or-replace: the inserted key now maps
to the new value, every other key is unaffected. -/
theorem find?_insertReplace (k : CityId) (v : CityPlugin) (k' : CityId) :
    ∀ m : List (CityId × CityPlugin),
      (insertReplace m k v).find? (fun e => decide (e.1 = k')) =
        if k = k' then some (k, v)
        else m.find? (fun e => decide (e.1 = k'))
  | [] => by
    by_cases h : k = k' <;> simp [insertReplace, List.find?, h]
  | (a, w) :: rest => by
    by_cases hak : a = k
    · subst hak
      by_cases h : a = k' <;> simp [insertReplace, List.find?, h]
    · have ih := find?_insertReplace k v k' rest
      by_cases hak' : a = k' <;> by_cases h : k = k' <;>
        simp_all [insertReplace, List.find?, hak, hak', h, ih]

/-- Folding plugins into the map and then looking a city up finds the last
plugin in the list carrying that id, else falls through to the initial
map. -/
theorem find?_foldl_insertReplace (id : CityId) :
    ∀ (ps : List CityPlugin) (m : List (CityId × CityPlugin)),
      ((ps.foldl (fun m p => insertReplace m p.meta.id p) m).find?
          (fun e => decide (e.1 = id))) =
        match ps.reverse.find? (fun p => decide (p.meta.id = id)) with
        | some p => some (p.meta.id, p)
        | none => m.find? (fun e => decide (e.1 = id))
  | [], m => by simp
  | p :: ps, m => by
    have ih := find?_foldl_insertReplace id ps (insertReplace m p.meta.id p)
    simp only [List.foldl_cons]
    rw [ih, List.reverse_cons, List.find?_append]
    cases hf : ps.reverse.find? (fun q => decide (q.meta.id = id))
    · rw [Option.none_or, find?_insertReplace]
      by_cases h : p.meta.id = id <;> simp [List.find?, h]
    · rfl

/-- `PluginRegistry::new` then `plugin`: resolution returns the last plugin
registered under the requested id, or `UnsupportedCity`. -/
theorem plugin_new_eq (ps : List CityPlugin) (id : CityId) :
    (PluginRegistry.new ps).plugin id =
      match ps.reverse.find? (fun p => decide (p.meta.id = id)) with
      | some p => .ok p
      | none => .error .UnsupportedCity := by
  unfold PluginRegistry.plugin PluginRegistry.new
  rw [find?_foldl_insertReplace]
  cases ps.reverse.find? (fun p => decide (p.meta.id = id)) <;> simp [List.find?]

/-- Every entry of an insert-or-replace is the inserted pair or an original
entry. -/
theorem mem_insertReplace {e : CityId × CityPlugin}
    {k : CityId} {v : CityPlugin} :
    ∀ {m : List (CityId × CityPlugin)},
      e ∈ insertReplace m k v → e = (k, v) ∨ e ∈ m
  | [], h => by simpa [insertReplace] using h
  | (a, w) :: rest, h => by
    by_cases hak : a = k
    · subst hak
      simp only [insertReplace, if_true] at h
      rcases List.mem_cons.mp h with rfl | h'
      · exact Or.inl rfl
      · exact Or.inr (List.mem_cons_of_mem _ h')
    · simp only [insertReplace, hak, if_false, reduceIte] at h
      rcases List.mem_cons.mp h with rfl | h'
      · exact Or.inr (List.mem_cons_self _ _)
      · rcases mem_insertReplace h' with h'' | h''
        · exact Or.inl h''
        · exact Or.inr (List.mem_cons_of_mem _ h'')

/-- Key membership after an insert-or-replace. -/
theorem keys_insertReplace (k : CityId) (v : CityPlugin) (a : CityId) :
    ∀ m : List (CityId × CityPlugin),
      (a ∈ (insertReplace m k v).map Prod.fst ↔
        a = k ∨ a ∈ m.map Prod.fst)
  | [] => by simp [insertReplace]
  | (b, w) :: rest => by
    by_cases hbk : b = k
    · subst hbk
      simp [insertReplace]
    · have ih := keys_insertReplace k v a rest
      simp [insertReplace, hbk, ih]
      tauto

/-- Insert-or-replace preserves distinctness of the keys. -/
theorem nodup_keys_insertReplace (k : CityId) (v : CityPlugin) :
    ∀ m : List (CityId × CityPlugin),
      (m.map Prod.fst).Nodup → ((insertReplace m k v).map Prod.fst).Nodup
  | [], _ => by simp [insertReplace]
  | (b, w) :: rest, h => by
    rw [List.map_cons, List.nodup_cons] at h
    by_cases hbk : b = k
    · subst hbk
      simpa [insertReplace, List.nodup_cons] using h
    · rw [show insertReplace ((b, w) :: rest) k v =
          (b, w) :: insertReplace rest k v by simp [insertReplace, hbk]]
      rw [List.map_cons, List.nodup_cons]
      refine ⟨?_, nodup_keys_insertReplace k v rest h.2⟩
      intro hmem
      rcases (keys_insertReplace k v b rest).mp hmem with rfl | h'
      · exact hbk rfl
      · exact h.1 h'

/-- Invariants of the registry map built by `PluginRegistry::new`: every
entry is keyed by its plugin's own id, the keys are distinct, and a key is
present exactly when some input plugin carries it. -/
theorem foldl_insertReplace_props :
    ∀ (ps : List CityPlugin) (m : List (CityId × CityPlugin)),
      (∀ e ∈ m, e.2.meta.id = e.1) → (m.map Prod.fst).Nodup →
      (∀ e ∈ ps.foldl (fun m p => insertReplace m p.meta.id p) m,
        e.2.meta.id = e.1) ∧
      (((ps.foldl (fun m p => insertReplace m p.meta.id p) m).map
          Prod.fst).Nodup) ∧
      (∀ a, a ∈ (ps.foldl (fun m p => insertReplace m p.meta.id p) m).map
          Prod.fst ↔ (∃ p ∈ ps, p.meta.id = a) ∨ a ∈ m.map Prod.fst)
  | [], m, hinv, hnd => by
    refine ⟨hinv, hnd, ?_⟩
    simp
  | p :: ps, m, hinv, hnd => by
    have hinv' : ∀ e ∈ insertReplace m p.meta.id p, e.2.meta.id = e.1 := by
      intro e he
      rcases mem_insertReplace he with rfl | he'
      · rfl
      · exact hinv e he'
    have hnd' := nodup_keys_insertReplace p.meta.id p m hnd
    have ih := foldl_insertReplace_props ps (insertReplace m p.meta.id p) hinv' hnd'
    refine ⟨ih.1, ih.2.1, ?_⟩
    intro a
    rw [List.foldl_cons, ih.2.2 a, keys_insertReplace]
    simp only [List.mem_cons]
    constructor
    · rintro (h | rfl | h)
      · rcases h with ⟨q, hq, hqa⟩
        exact Or.inl ⟨q, Or.inr hq, hqa⟩
      · exact Or.inl ⟨p, Or.inl rfl, rfl⟩
      · exact Or.inr h
    · rintro (⟨q, hq | hq, hqa⟩ | h)
      · subst hq
        exact Or.inr (Or.inl hqa.symm)
      · exact Or.inl ⟨q, hq, hqa⟩
      · exact Or.inr (Or.inr h)

/-- C10: constructing a registry from a list with duplicate city ids
succeeds and silently keeps one plugin per id — the later list entry wins —
so `plugin` returns the last-registered bundle and `cities` carries exactly
one metadata entry per distinct id, not one per input plugin. -/
theorem registry_duplicate_ids_last_wins (ps : List CityPlugin) (id : CityId) :
    ((PluginRegistry.new ps).plugin id =
      match ps.reverse.find? (fun p => decide (p.meta.id = id)) with
      | some p => .ok p
      | none => .error .UnsupportedCity) ∧
    (((PluginRegistry.new ps).cities.map (fun meta => meta.id)).Nodup) ∧
    (id ∈ (PluginRegistry.new ps).cities.map (fun meta => meta.id) ↔
      ∃ p ∈ ps, p.meta.id = id) := by
  have hprops := foldl_insertReplace_props ps [] (by simp) (by simp)
  have hmapeq : (PluginRegistry.new ps).cities.map (fun meta => meta.id) =
      (PluginRegistry.new ps).plugins.map Prod.fst := by
    unfold PluginRegistry.cities
    rw [List.map_map]
    exact List.map_congr_left (fun e he => hprops.1 e he)
  refine ⟨plugin_new_eq ps id, ?_, ?_⟩
  · rw [hmapeq]
    exact hprops.2.1
  · rw [hmapeq]
    show id ∈ (List.foldl (fun m p => insertReplace m p.meta.id p) [] ps).map
      Prod.fst ↔ _
    rw [hprops.2.2 id]
    simp

/-- C9: `plugin` on a registered id returns a bundle whose metadata id is
that id; on an unregistered id it fails with `UnsupportedCity`, and both
facade operations propagate exactly that failure. -/
theorem registry_resolution_and_propagation (ps : List CityPlugin) (city : CityId) :
    ((∃ p ∈ ps, p.meta.id = city) →
      ∃ b, (PluginRegistry.new ps).plugin city = .ok b ∧ b.meta.id = city) ∧
    ((∀ p ∈ ps, p.meta.id ≠ city) →
      (PluginRegistry.new ps).plugin city = .error .UnsupportedCity ∧
      (∀ query limit,
        TonneliService.search_addresses (PluginRegistry.new ps) city query limit =
          .error .UnsupportedCity) ∧
      (∀ address_id range,
        TonneliService.schedule_for (PluginRegistry.new ps) city address_id range =
          .error .UnsupportedCity)) := by
  constructor
  · rintro ⟨p, hp, hpid⟩
    have hsome : (ps.reverse.find? (fun q => decide (q.meta.id = city))).isSome := by
      rw [List.find?_isSome]
      exact ⟨p, List.mem_reverse.mpr hp, by simpa using hpid⟩
    rcases Option.isSome_iff_exists.mp hsome with ⟨q, hq⟩
    have hqid : q.meta.id = city := by simpa using List.find?_some hq
    refine ⟨q, ?_, hqid⟩
    rw [plugin_new_eq, hq]
  · intro hall
    have hnone : ps.reverse.find? (fun q => decide (q.meta.id = city)) = none := by
      rw [List.find?_eq_none]
      intro q hq
      simpa using hall q (List.mem_reverse.mp hq)
    have hplug : (PluginRegistry.new ps).plugin city = .error .UnsupportedCity := by
      rw [plugin_new_eq, hnone]
    refine ⟨hplug, ?_, ?_⟩
    · intro query limit
      rw [TonneliService.search_addresses, hplug]
    · intro address_id range
      rw [TonneliService.schedule_for, hplug]

/-- A stub plugin bundle used only to witness the registry theorems. -/
def demoPlugin (id name : String) : CityPlugin :=
  ⟨⟨⟨str id⟩, str name⟩, fun _ _ => .ok [], fun _ _ => .ok []⟩

/-- Witness for C9: with Cologne and Nuremberg registered, resolving
"cologne" yields a bundle with that id, and resolving the unregistered
"aachen" makes both facade calls fail with `UnsupportedCity`. -/
theorem registry_resolution_and_propagation_witness :
    (∃ b, (PluginRegistry.new [demoPlugin "cologne" "Köln",
        demoPlugin "nuremberg" "Nürnberg"]).plugin ⟨str "cologne"⟩ = .ok b ∧
      b.meta.id = ⟨str "cologne"⟩) ∧
    (TonneliService.search_addresses
        (PluginRegistry.new [demoPlugin "cologne" "Köln",
          demoPlugin "nuremberg" "Nürnberg"]) ⟨str "aachen"⟩
        ⟨str "Hauptstr.", none⟩ 5 = .error .UnsupportedCity) ∧
    (TonneliService.schedule_for
        (PluginRegistry.new [demoPlugin "cologne" "Köln",
          demoPlugin "nuremberg" "Nürnberg"]) ⟨str "aachen"⟩
        ⟨str "100:1:"⟩ ⟨⟨2024, 1, 1⟩, ⟨2024, 12, 31⟩⟩ = .error .UnsupportedCity) := by
  have hyes := registry_resolution_and_propagation
    [demoPlugin "cologne" "Köln", demoPlugin "nuremberg" "Nürnberg"] ⟨str "cologne"⟩
  have hno := registry_resolution_and_propagation
    [demoPlugin "cologne" "Köln", demoPlugin "nuremberg" "Nürnberg"] ⟨str "aachen"⟩
  have hall : ∀ p ∈ [demoPlugin "cologne" "Köln", demoPlugin "nuremberg" "Nürnberg"],
      p.meta.id ≠ (⟨str "aachen"⟩ : CityId) := by
    intro p hp
    rcases List.mem_cons.mp hp with rfl | hp'
    · decide
    · rcases List.mem_cons.mp hp' with rfl | hp''
      · decide
      · cases hp''
  refine ⟨hyes.1 ⟨demoPlugin "cologne" "Köln", List.mem_cons_self _ _, rfl⟩, ?_, ?_⟩
  · exact (hno.2 hall).2.1 _ _
  · exact (hno.2 hall).2.2 _ _
